import Mathlib

/-!
Shallow embedding of `src/market/market.py` of the pyserum repository
(the `Market` class: fill-event parsing, `load_fills`, order placement,
instruction construction, transaction submission, and the unimplemented
capability stubs), together with theorems settling the frozen claims.

External collaborators (the RPC connection, the open-orders account
locator, rent-exemption query and transaction submitter) are modelled as
oracles carried in a `Conn` record; every network interaction a run
performs is recorded in an explicit effect trace, in program order, so
that temporal claims ("before any network call") become statements about
the trace.
-/

namespace PySerum

/-- Solana public keys are opaque 32-byte identifiers; only equality is
used by the embedded code, so they are modelled as natural numbers. -/
abbrev PublicKey := Nat

/-- Order side, from `src/enums.py` (referenced by `market.py`). -/
inductive Side where
  | Buy
  | Sell
  deriving DecidableEq

/-- Order type, from `src/enums.py` (referenced by `market.py`). -/
inductive OrderType where
  | Limit
  | IOC
  | PostOnly
  deriving DecidableEq

/-- Modelled from the spec: the wrapped native token mint
(`spl.token.constants.WRAPPED_SOL_MINT`), an external constant public
key; its concrete value is opaque, only equality with market mints
matters. -/
def WRAPPED_SOL_MINT : PublicKey := 900112

/-- Event flags of a decoded event-queue record (§4 data model: "flags
(fill/out, bid/ask, maker/taker)"); `market.py` reads `fill`, `bid` and
`maker`. -/
structure EventFlags where
  fill : Bool
  out : Bool
  bid : Bool
  maker : Bool
  deriving DecidableEq

/-- A decoded event-queue record, with the fields `Market.parse_fill_event`
and `Market.load_fills` read: flags, the 128-bit order id as its
little-endian byte string, and the native quantities. -/
structure Event where
  event_flags : EventFlags
  order_id : List Nat
  native_quantity_released : Nat
  native_quantity_paid : Nat
  native_fee_or_rebate : Nat
  deriving DecidableEq

/-- Modelled from the spec: the decoded market state
(`src/market/state.py` is not under `src/`; §3 MarketState lists the
program-owned addresses, decimal multipliers and lot-size conversions).
The accessor methods `market.py` calls become fields; the two
number-to-lots conversions are kept as opaque integer functions, so every
theorem quantifying over a `MarketState` covers every possible conversion
behaviour. -/
structure MarketState where
  own_address : PublicKey
  program_id : PublicKey
  base_mint : PublicKey
  quote_mint : PublicKey
  request_queue : PublicKey
  event_queue : PublicKey
  bids : PublicKey
  asks : PublicKey
  base_vault : PublicKey
  quote_vault : PublicKey
  base_spl_token_multiplier : Nat
  quote_spl_token_multiplier : Nat
  price_number_to_lots : Int → Int
  base_size_number_to_lots : Int → Int

/-- A filled order as produced by `Market.parse_fill_event`
(`market.py` lines 125-131); prices and sizes are exact rationals
standing for the Python arbitrary-precision division results. -/
structure FilledOrder where
  order_id : Nat
  side : Side
  price : ℚ
  size : ℚ
  fee_cost : Int
  deriving DecidableEq

/-- Python's `int.from_bytes(b, "little")`: least-significant byte
first. -/
def int_from_bytes_le (bs : List Nat) : Nat :=
  bs.foldr (fun b acc => b + 256 * acc) 0

/-- The price-before-fees computation of `Market.parse_fill_event`
(`market.py` lines 106-119): for a bid (buy) the fee is added when the
maker flag is set and subtracted otherwise; for a non-bid (sell) the fee
is subtracted when the maker flag is set and added otherwise. Python
integers never overflow, so the subtraction lives in ℤ. -/
def price_before_fees (flags : EventFlags) (native_quantity_released native_fee_or_rebate : Nat) : Int :=
  if flags.bid then
    if flags.maker then
      (native_quantity_released : Int) + native_fee_or_rebate
    else
      (native_quantity_released : Int) - native_fee_or_rebate
  else
    if flags.maker then
      (native_quantity_released : Int) - native_fee_or_rebate
    else
      (native_quantity_released : Int) + native_fee_or_rebate

/-- `Market.parse_fill_event` (`market.py` lines 105-131). -/
def parse_fill_event (m : MarketState) (event : Event) : FilledOrder :=
  let side : Side := if event.event_flags.bid then Side.Buy else Side.Sell
  let pbf : Int := price_before_fees event.event_flags event.native_quantity_released event.native_fee_or_rebate
  let price : ℚ := ((pbf : ℚ) * (m.base_spl_token_multiplier : ℚ)) /
    ((m.quote_spl_token_multiplier : ℚ) * (event.native_quantity_paid : ℚ))
  let size : ℚ := (event.native_quantity_paid : ℚ) / (m.base_spl_token_multiplier : ℚ)
  { order_id := int_from_bytes_le event.order_id
    side := side
    price := price
    size := size
    fee_cost := (event.native_fee_or_rebate : Int) * (if event.event_flags.maker then 1 else -1) }

/-- `Market.load_fills` (`market.py` lines 96-103) after the event queue
has been decoded: the Python list comprehension
`[self.parse_fill_event(e) for e in events if e.event_flags.fill and e.native_quantity_paid > 0]`,
embedded as the equivalent left-to-right recursion over the decoded
event list (`decode_event_queue` is not under `src/`; the claims
quantify over its output). -/
def load_fills (m : MarketState) (events : List Event) : List FilledOrder :=
  match events with
  | [] => []
  | event :: rest =>
    if event.event_flags.fill ∧ 0 < event.native_quantity_paid then
      parse_fill_event m event :: load_fills m rest
    else
      load_fills m rest

/-- Python exception kinds raised by `market.py`: `ValueError`
(line 165), `NotImplementedError` (the capability stubs and line 170)
and bare `Exception` (lines 198, 200, 268). -/
inductive PyError where
  | valueError (msg : String)
  | notImplementedError (msg : String)
  | genericException (msg : String)
  deriving DecidableEq

/-- Parameters of a new-order instruction, mirroring
`instructions.NewOrderParams` as filled in by
`Market.make_place_order_instruction` (`market.py` lines 201-217). -/
structure NewOrderParams where
  market : PublicKey
  open_orders : PublicKey
  payer : PublicKey
  owner : PublicKey
  request_queue : PublicKey
  base_vault : PublicKey
  quote_vault : PublicKey
  side : Side
  limit_price : Int
  max_quantity : Int
  order_type : OrderType
  client_id : Nat
  program_id : PublicKey
  deriving DecidableEq

/-- Modelled from the spec: produced instruction payloads (§6 lists
`NewOrder` and `CreateAccount` among the byte-exact payloads;
`src/instructions.py` and `make_create_account_instruction` of
`src/open_orders_account.py` are not under `src/`). A payload is the
tagged record of the fields the builder passes in; the
`create_account` fields are, in order, the funding owner, the new
account, the rent-exempt balance and the program id. -/
inductive TransactionInstruction where
  | new_order (params : NewOrderParams)
  | create_account (from_account : PublicKey) (new_account : PublicKey) (lamports : Nat) (program_id : PublicKey)
  deriving DecidableEq

/-- Modelled from the spec: `OPEN_ORDERS_LAYOUT.sizeof()`, the fixed
byte size of the open-orders account layout
(`src/_layouts/open_orders.py` is not under `src/`); an opaque positive
constant. -/
def OPEN_ORDERS_LAYOUT_SIZE : Nat := 3228

/-- A reference to an existing open-orders account as returned by the
open-orders account locator (§6); `place_order` reads only its
`address`. -/
structure OpenOrdersAccountRef where
  address : PublicKey
  deriving DecidableEq

/-- One network interaction performed by the embedded code, in program
order: the open-orders account lookup
(`find_open_orders_accounts_for_owner`, `market.py` line 145), the
rent-exemption query (line 148), and the transaction submission
(line 263) carrying the submitted instruction list and signer set. -/
inductive NetworkEffect where
  | find_open_orders (market : PublicKey) (owner : PublicKey)
  | get_minimum_balance_for_rent_exemption (size : Nat)
  | send (txn : List TransactionInstruction) (signers : List PublicKey)
  deriving DecidableEq

/-- Whether a network effect is a transaction submission. -/
def is_send : NetworkEffect → Bool
  | NetworkEffect.send _ _ => true
  | _ => false

/-- The external collaborators of one `Market` call, as oracles: the
result of the open-orders account lookup, the rent-exemption balance the
RPC node reports, and the `result` field of the submission response
(`none` when the response carries no `result`). -/
structure Conn where
  find_open_orders_result : List OpenOrdersAccountRef
  rent_exemption_result : Nat
  send_result : Option String

/-- `Market._send_transaction` (`market.py` lines 262-269): submit once,
read `res.get("result")`, and raise unless the signature is truthy (a
missing result and an empty string are both falsy in Python). The
confirmation branch only logs a warning and performs no interaction. -/
def send_transaction (conn : Conn) (txn : List TransactionInstruction) (signers : List PublicKey) :
    List NetworkEffect × Except PyError String :=
  ([NetworkEffect.send txn signers],
    match conn.send_result with
    | none => Except.error (PyError.genericException "Transaction not sent successfully")
    | some s =>
      if s = "" then Except.error (PyError.genericException "Transaction not sent successfully")
      else Except.ok s)

/-- The `NewOrderParams` record `Market.make_place_order_instruction`
fills in (`market.py` lines 202-216). -/
def new_order_params (m : MarketState) (payer owner : PublicKey)
    (order_type : OrderType) (side : Side) (limit_price max_quantity : Int)
    (client_id : Nat) (open_order_account : PublicKey) : NewOrderParams :=
  { market := m.own_address
    open_orders := open_order_account
    payer := payer
    owner := owner
    request_queue := m.request_queue
    base_vault := m.base_vault
    quote_vault := m.quote_vault
    side := side
    limit_price := limit_price
    max_quantity := max_quantity
    order_type := order_type
    client_id := client_id
    program_id := m.program_id }

/-- `Market.make_place_order_instruction` (`market.py` lines 186-217):
raise when the converted size lots, then the converted price lots, are
negative; otherwise produce the new-order payload. -/
def make_place_order_instruction (m : MarketState) (payer owner : PublicKey)
    (order_type : OrderType) (side : Side) (limit_price max_quantity : Int)
    (client_id : Nat) (open_order_account : PublicKey) :
    Except PyError TransactionInstruction :=
  if m.base_size_number_to_lots max_quantity < 0 then
    Except.error (PyError.genericException ("Size lot " ++ toString max_quantity ++ " is too small"))
  else if m.price_number_to_lots limit_price < 0 then
    Except.error (PyError.genericException ("Price lot " ++ toString limit_price ++ " is too small"))
  else
    Except.ok (TransactionInstruction.new_order
      (new_order_params m payer owner order_type side limit_price max_quantity client_id open_order_account))

/-- In the source (`market.py` line 167) the sell-side wrapped-SOL test
reads `self.state.base_mint == WRAPPED_SOL_MINT` without calling the
accessor: it compares the bound method object itself with a `PublicKey`.
A Python method object never equals a `PublicKey`, so the comparison
evaluates to `False` for every market state; this definition embeds that
sub-expression with the value Python gives it. -/
def base_mint_method_equals_wrapped_sol (_m : MarketState) : Bool := false

/-- The wrapped-SOL rejection condition of `Market.place_order`
(`market.py` lines 166-168), exactly as the source evaluates it: the
buy side compares `quote_mint()` (called), the sell side compares the
uncalled `base_mint` attribute (see
`base_mint_method_equals_wrapped_sol`). -/
abbrev wrapped_sol_condition (m : MarketState) (side : Side) : Prop :=
  (side = Side.Buy ∧ m.quote_mint = WRAPPED_SOL_MINT) ∨
    (side = Side.Sell ∧ base_mint_method_equals_wrapped_sol m = true)

/-- The tail of `Market.place_order` after the open-orders account has
been resolved (`market.py` lines 164-184): the payer check, the
wrapped-SOL check, building the new-order instruction, appending it to
the transaction and submitting. `trace` holds the network effects already
performed, `txn` and `signers` the transaction and signer set built so
far. -/
def place_order_rest (m : MarketState) (conn : Conn) (payer owner : PublicKey)
    (order_type : OrderType) (side : Side) (limit_price max_quantity : Int)
    (client_id : Nat) (open_order_account : PublicKey)
    (trace : List NetworkEffect) (txn : List TransactionInstruction)
    (signers : List PublicKey) :
    List NetworkEffect × Except PyError String :=
  if payer = owner then
    (trace, Except.error (PyError.valueError "Invalid payer account"))
  else if wrapped_sol_condition m side then
    (trace, Except.error (PyError.notImplementedError "WRAPPED_SOL_MINT is currently unsupported"))
  else
    match make_place_order_instruction m payer owner order_type side limit_price max_quantity client_id open_order_account with
    | Except.error e => (trace, Except.error e)
    | Except.ok instr =>
      let sent := send_transaction conn (txn ++ [instr]) signers
      (trace ++ sent.1, sent.2)

/-- `Market.place_order` (`market.py` lines 133-184). The open-orders
lookup runs first; when it returns no account, a fresh keypair
(`fresh_account`, standing for `Account()`) is generated, the
rent-exemption balance is fetched, a create-account instruction is added
to the transaction and the fresh account joins the signer set. The
resolved open-orders address is the first found account, or the fresh
account's key. -/
def place_order (m : MarketState) (conn : Conn) (fresh_account : PublicKey)
    (payer owner : PublicKey) (order_type : OrderType) (side : Side)
    (limit_price max_quantity : Int) (client_id : Nat) :
    List NetworkEffect × Except PyError String :=
  match conn.find_open_orders_result with
  | [] =>
    place_order_rest m conn payer owner order_type side limit_price max_quantity client_id
      fresh_account
      [NetworkEffect.find_open_orders m.own_address owner,
        NetworkEffect.get_minimum_balance_for_rent_exemption OPEN_ORDERS_LAYOUT_SIZE]
      [TransactionInstruction.create_account owner fresh_account conn.rent_exemption_result m.program_id]
      [owner, fresh_account]
  | acct :: _ =>
    place_order_rest m conn payer owner order_type side limit_price max_quantity client_id
      acct.address
      [NetworkEffect.find_open_orders m.own_address owner]
      []
      [owner]

/-- `Market.support_srm_fee_discounts` (`market.py` lines 55-56): raises
`NotImplementedError` before any interaction. -/
def support_srm_fee_discounts (_conn : Conn) :
    List NetworkEffect × Except PyError Bool :=
  ([], Except.error (PyError.notImplementedError "support_srm_fee_discounts not implemented"))

/-- `Market.find_fee_discount_keys` (`market.py` lines 58-59). -/
def find_fee_discount_keys (_conn : Conn) (_owner : PublicKey) (_cache_duration : Nat) :
    List NetworkEffect × Except PyError Unit :=
  ([], Except.error (PyError.notImplementedError "find_fee_discount_keys not implemented"))

/-- `Market.find_best_fee_discount_key` (`market.py` lines 61-62). -/
def find_best_fee_discount_key (_conn : Conn) (_owner : PublicKey) (_cache_duration : Nat) :
    List NetworkEffect × Except PyError Unit :=
  ([], Except.error (PyError.notImplementedError "find_best_fee_discount_key not implemented"))

/-- `Market.find_quote_token_accounts_for_owner` (`market.py`
lines 69-70): the wrapped-native-token account handling stub. -/
def find_quote_token_accounts_for_owner (_conn : Conn) (_owner : PublicKey) (_include_unwrapped_sol : Bool) :
    List NetworkEffect × Except PyError Unit :=
  ([], Except.error (PyError.notImplementedError "find_quote_token_accounts_for_owner not implemented"))

/-- `Market.load_orders_for_owner` (`market.py` lines 82-83). -/
def load_orders_for_owner (_conn : Conn) :
    List NetworkEffect × Except PyError Unit :=
  ([], Except.error (PyError.notImplementedError "load_orders_for_owner not implemented"))

/-- `Market.load_base_token_for_owner` (`market.py` lines 85-86). -/
def load_base_token_for_owner (_conn : Conn) :
    List NetworkEffect × Except PyError Unit :=
  ([], Except.error (PyError.notImplementedError "load_base_token_for_owner not implemented"))

/-- `Market.cancel_order_by_client_id` (`market.py` lines 219-220). -/
def cancel_order_by_client_id (_conn : Conn) (_owner : String) :
    List NetworkEffect × Except PyError String :=
  ([], Except.error (PyError.notImplementedError "cancel_order_by_client_id not implemented"))

/-- `Market.settle_funds` (`market.py` lines 257-260): the owner-side
settlement stub. -/
def settle_funds (_conn : Conn) (_owner : PublicKey) (_open_orders : OpenOrdersAccountRef)
    (_base_wallet _quote_wallet : PublicKey) :
    List NetworkEffect × Except PyError String :=
  ([], Except.error (PyError.notImplementedError "settle_funds not implemented"))

/-! ### Concrete fixtures used by closed theorems and witnesses -/

/-- A market state whose number-to-lots conversions both yield 0 lots for
every input, as `price_number_to_lots`/`base_size_number_to_lots` do at
input 0 (§8: `price_to_lots(0)`). -/
def stateA : MarketState :=
  { own_address := 100, program_id := 101, base_mint := 102, quote_mint := 103,
    request_queue := 104, event_queue := 105, bids := 106, asks := 107,
    base_vault := 108, quote_vault := 109,
    base_spl_token_multiplier := 1, quote_spl_token_multiplier := 1,
    price_number_to_lots := fun _ => 0, base_size_number_to_lots := fun _ => 0 }

/-- A market state with unit SPL token multipliers and identity lot
conversions (lot size 1). -/
def stateB : MarketState :=
  { own_address := 100, program_id := 101, base_mint := 102, quote_mint := 103,
    request_queue := 104, event_queue := 105, bids := 106, asks := 107,
    base_vault := 108, quote_vault := 109,
    base_spl_token_multiplier := 1, quote_spl_token_multiplier := 1,
    price_number_to_lots := fun p => p, base_size_number_to_lots := fun s => s }

/-- A market whose base mint is the wrapped native token mint. -/
def stateE : MarketState :=
  { own_address := 100, program_id := 101, base_mint := WRAPPED_SOL_MINT, quote_mint := 103,
    request_queue := 104, event_queue := 105, bids := 106, asks := 107,
    base_vault := 108, quote_vault := 109,
    base_spl_token_multiplier := 1, quote_spl_token_multiplier := 1,
    price_number_to_lots := fun p => p, base_size_number_to_lots := fun s => s }

/-- The synthetic fill event of §8: bid and maker flags set,
1000 native released, 500 native paid, fee 10. -/
def eventB : Event :=
  { event_flags := { fill := true, out := false, bid := true, maker := true },
    order_id := [7],
    native_quantity_released := 1000,
    native_quantity_paid := 500,
    native_fee_or_rebate := 10 }

/-- Flags of a sell-side (bid unset) non-maker fill event. -/
def sell_taker_flags : EventFlags :=
  { fill := true, out := false, bid := false, maker := false }

/-- Flags of a buy-side (bid set) non-maker fill event. -/
def buy_taker_flags : EventFlags :=
  { fill := true, out := false, bid := true, maker := false }

/-- Oracles: one existing open-orders account at address 500 and a
successful submission. -/
def connD : Conn :=
  { find_open_orders_result := [{ address := 500 }],
    rent_exemption_result := 2039280,
    send_result := some "sig" }

/-- Oracles: no existing open-orders account, successful submission. -/
def connEmpty : Conn :=
  { find_open_orders_result := [],
    rent_exemption_result := 2039280,
    send_result := some "sig" }

/-- Oracles: submission response without a `result` field. -/
def connNone : Conn :=
  { find_open_orders_result := [{ address := 500 }],
    rent_exemption_result := 2039280,
    send_result := none }

/-! ### Shared helper lemmas -/

/-- When the converted size lots or price lots are negative,
`make_place_order_instruction` never returns an instruction. -/
theorem make_place_order_instruction_ne_ok (m : MarketState) (payer owner : PublicKey)
    (ot : OrderType) (side : Side) (lp mq : Int) (cid : Nat) (ooa : PublicKey)
    (h : m.base_size_number_to_lots mq < 0 ∨ m.price_number_to_lots lp < 0) :
    ∀ instr, make_place_order_instruction m payer owner ot side lp mq cid ooa ≠ Except.ok instr := by
  intro instr
  unfold make_place_order_instruction
  rcases h with h | h
  · simp [h]
  · by_cases hb : m.base_size_number_to_lots mq < 0 <;> simp [hb, h]

/-- When the converted lots are negative, the tail of `place_order`
performs no interaction beyond the already-recorded trace; in particular
it never submits. -/
theorem place_order_rest_no_send (m : MarketState) (conn : Conn) (payer owner : PublicKey)
    (ot : OrderType) (side : Side) (lp mq : Int) (cid : Nat) (ooa : PublicKey)
    (trace : List NetworkEffect) (txn : List TransactionInstruction) (signers : List PublicKey)
    (htrace : trace.all (fun e => !(is_send e)) = true)
    (h : m.base_size_number_to_lots mq < 0 ∨ m.price_number_to_lots lp < 0) :
    ((place_order_rest m conn payer owner ot side lp mq cid ooa trace txn signers).1.all
      (fun e => !(is_send e))) = true := by
  unfold place_order_rest
  split
  · exact htrace
  · split
    · exact htrace
    · cases hmk : make_place_order_instruction m payer owner ot side lp mq cid ooa with
      | error e => simp [hmk, htrace]
      | ok instr =>
        exact absurd hmk (make_place_order_instruction_ne_ok m payer owner ot side lp mq cid ooa h instr)

/-- When both conversions yield non-negative lots, the builder produces
the new-order payload. -/
theorem make_place_order_instruction_ok (m : MarketState) (payer owner : PublicKey)
    (ot : OrderType) (side : Side) (lp mq : Int) (cid : Nat) (ooa : PublicKey)
    (hs : 0 ≤ m.base_size_number_to_lots mq) (hq : 0 ≤ m.price_number_to_lots lp) :
    make_place_order_instruction m payer owner ot side lp mq cid ooa =
      Except.ok (TransactionInstruction.new_order (new_order_params m payer owner ot side lp mq cid ooa)) := by
  unfold make_place_order_instruction
  rw [if_neg (Int.not_lt.mpr hs), if_neg (Int.not_lt.mpr hq)]

/-- A successful tail of `place_order`: the new-order instruction is
appended to the transaction built so far and the result is submitted with
the accumulated signer set. -/
theorem place_order_rest_success (m : MarketState) (conn : Conn) (payer owner : PublicKey)
    (ot : OrderType) (side : Side) (lp mq : Int) (cid : Nat) (ooa : PublicKey)
    (trace : List NetworkEffect) (txn : List TransactionInstruction) (signers : List PublicKey)
    (hp : payer ≠ owner) (hw : ¬ wrapped_sol_condition m side)
    (hs : 0 ≤ m.base_size_number_to_lots mq) (hq : 0 ≤ m.price_number_to_lots lp) :
    place_order_rest m conn payer owner ot side lp mq cid ooa trace txn signers =
      (trace ++ [NetworkEffect.send
          (txn ++ [TransactionInstruction.new_order (new_order_params m payer owner ot side lp mq cid ooa)])
          signers],
        (send_transaction conn
          (txn ++ [TransactionInstruction.new_order (new_order_params m payer owner ot side lp mq cid ooa)])
          signers).2) := by
  unfold place_order_rest
  rw [if_neg hp, if_neg hw, make_place_order_instruction_ok m payer owner ot side lp mq cid ooa hs hq]
  rfl

/-! ### Claims -/

/-- Claim C1 (code bug): the claim and §8 of the spec require that a
price or size converting to fewer than 1 lot (in particular 0 lots)
fails with the lot-size-too-small error, but
`make_place_order_instruction` only checks `< 0` (`market.py`
lines 197-200): on a state whose conversions yield 0 lots — as
`price_to_lots(0)` does per §8 — the call succeeds and produces a full
instruction payload. -/
theorem c1_zero_lot_order_produces_instruction :
    stateA.price_number_to_lots 0 < 1 ∧ stateA.base_size_number_to_lots 0 < 1 ∧
    make_place_order_instruction stateA 1 2 OrderType.Limit Side.Buy 0 0 7 55 =
      Except.ok (TransactionInstruction.new_order
        (new_order_params stateA 1 2 OrderType.Limit Side.Buy 0 0 7 55)) :=
  ⟨by decide, by decide, rfl⟩

/-- Claim C2: parsing the synthetic fill event of §8 (bid and maker set,
released 1000, fee 10, paid 500, both multipliers 1) yields side Buy,
price 1010/500 = 2.02, size 500 and fee cost 10. -/
theorem c2_fill_event_parses_as_specified :
    (parse_fill_event stateB eventB).side = Side.Buy ∧
    (parse_fill_event stateB eventB).price = (1010 : ℚ) / 500 ∧
    (parse_fill_event stateB eventB).price = (202 : ℚ) / 100 ∧
    (parse_fill_event stateB eventB).size = 500 ∧
    (parse_fill_event stateB eventB).fee_cost = 10 := by
  refine ⟨rfl, ?_, ?_, ?_, rfl⟩ <;>
    norm_num [parse_fill_event, price_before_fees, eventB, stateB]

/-- Claim C3 (counterexample): the claim asserts that for non-maker
events the fee is subtracted on a sell and added on a buy; at released
1000 and fee 10 the code does the opposite — the sell-side non-maker
price-before-fees is 1010, not 1000 - 10, and the buy-side non-maker
value is 990, not 1000 + 10 (`market.py` lines 108-119). -/
theorem c3_counterexample_taker_fee_direction :
    price_before_fees sell_taker_flags 1000 10 = 1010 ∧
    price_before_fees sell_taker_flags 1000 10 ≠ (1000 : Int) - 10 ∧
    price_before_fees buy_taker_flags 1000 10 = 990 ∧
    price_before_fees buy_taker_flags 1000 10 ≠ (1000 : Int) + 10 := by
  decide

/-- Claim C3 (amended): in the fill-parsing price-before-fees
computation, for every event with the maker flag not set, the fee is
subtracted from `native_quantity_released` when the event is a buy (bid
flag set) and added when the event is a sell (bid flag not set). -/
theorem c3_amended_taker_fee_direction (flags : EventFlags) (released fee : Nat)
    (h : flags.maker = false) :
    price_before_fees flags released fee =
      if flags.bid then (released : Int) - fee else (released : Int) + fee := by
  rcases flags with ⟨f, o, b, mk⟩
  cases b <;> simp_all [price_before_fees]

/-- Witness for `c3_amended_taker_fee_direction` at the sell-side
non-maker flags with released 1000 and fee 10. -/
theorem c3_amended_taker_fee_direction_witness :
    sell_taker_flags.maker = false ∧
    price_before_fees sell_taker_flags 1000 10 = (1000 : Int) + 10 := by
  refine ⟨rfl, ?_⟩
  have h := c3_amended_taker_fee_direction sell_taker_flags 1000 10 rfl
  simpa [sell_taker_flags] using h

/-- Claim C4: for every decoded event queue, `load_fills` returns exactly
the events whose fill flag is set and whose `native_quantity_paid` is
strictly positive, each mapped through `parse_fill_event`, in the same
relative order as the decoded queue — that is, it equals the filter of
the decoded list followed by the map. -/
theorem c4_load_fills_filters_and_maps_in_order (m : MarketState) (events : List Event) :
    load_fills m events =
      (events.filter (fun e => e.event_flags.fill && decide (0 < e.native_quantity_paid))).map
        (parse_fill_event m) := by
  induction events with
  | nil => rfl
  | cons e rest ih =>
    by_cases h : e.event_flags.fill ∧ 0 < e.native_quantity_paid
    · simp [load_fills, List.filter_cons, h, ih, h.1, h.2]
    · simp only [load_fills, if_neg h, List.filter_cons, ih]
      have hb : (e.event_flags.fill && decide (0 < e.native_quantity_paid)) = false := by
        rcases Decidable.not_and_iff_or_not.mp h with h1 | h1 <;> simp [h1]
      simp [hb]

/-- Claim C5 (counterexample): a `place_order` call whose size converts
to negative lots does fail with the lot-size error, but the network
lookup of the open-orders accounts has already happened: the effect
trace of the failing call is non-empty, so a network interaction
precedes the lot-size validation (`market.py` line 145 runs before
lines 197-200). -/
theorem c5_counterexample_lookup_precedes_lot_validation :
    place_order stateB connD 9 1 2 OrderType.Limit Side.Buy 10 (-5) 0 =
      ([NetworkEffect.find_open_orders 100 2],
        Except.error (PyError.genericException "Size lot -5 is too small")) ∧
    NetworkEffect.find_open_orders 100 2 ∈
      (place_order stateB connD 9 1 2 OrderType.Limit Side.Buy 10 (-5) 0).1 :=
  ⟨rfl, List.Mem.head _⟩

/-- Claim C5 (amended): for every `place_order` call whose price or size
converts to negative lots, no transaction submission is ever attempted —
the effect trace contains no `send` effect; the open-orders account
lookup (and, when no account exists, the rent-exemption query) may
precede the lot-size validation. -/
theorem c5_amended_no_submission_on_bad_lots (m : MarketState) (conn : Conn)
    (fresh payer owner : PublicKey) (ot : OrderType) (side : Side)
    (lp mq : Int) (cid : Nat)
    (h : m.base_size_number_to_lots mq < 0 ∨ m.price_number_to_lots lp < 0) :
    ((place_order m conn fresh payer owner ot side lp mq cid).1.all
      (fun e => !(is_send e))) = true := by
  unfold place_order
  cases hfo : conn.find_open_orders_result with
  | nil => exact place_order_rest_no_send _ _ _ _ _ _ _ _ _ _ _ _ _ (by simp [is_send]) h
  | cons a rest => exact place_order_rest_no_send _ _ _ _ _ _ _ _ _ _ _ _ _ (by simp [is_send]) h

/-- Witness for `c5_amended_no_submission_on_bad_lots`: a concrete call
with size lots -5. -/
theorem c5_amended_no_submission_on_bad_lots_witness :
    (stateB.base_size_number_to_lots (-5) < 0 ∨ stateB.price_number_to_lots 10 < 0) ∧
    ((place_order stateB connD 9 1 2 OrderType.Limit Side.Buy 10 (-5) 0).1.all
      (fun e => !(is_send e))) = true :=
  ⟨Or.inl (by decide),
    c5_amended_no_submission_on_bad_lots stateB connD 9 1 2 OrderType.Limit Side.Buy 10 (-5) 0
      (Or.inl (by decide))⟩

/-- Claim C6: on a successful `place_order` call, when the open-orders
account lookup returns a non-empty sequence the first account's address
goes into the new-order instruction and the submitted transaction holds
no create-account instruction, with the owner as sole signer; when the
lookup returns an empty sequence, a create-account instruction for the
freshly generated account precedes the new-order instruction in the same
transaction, the new-order instruction references the fresh account, and
the fresh account joins the signer set. -/
theorem c6_open_orders_account_resolution (m : MarketState) (conn : Conn)
    (fresh payer owner : PublicKey) (ot : OrderType) (side : Side)
    (lp mq : Int) (cid : Nat)
    (hp : payer ≠ owner)
    (hw : ¬ wrapped_sol_condition m side)
    (hs : 0 ≤ m.base_size_number_to_lots mq)
    (hq : 0 ≤ m.price_number_to_lots lp) :
    (∀ acct rest, conn.find_open_orders_result = acct :: rest →
      (place_order m conn fresh payer owner ot side lp mq cid).1 =
        [NetworkEffect.find_open_orders m.own_address owner,
          NetworkEffect.send
            [TransactionInstruction.new_order (new_order_params m payer owner ot side lp mq cid acct.address)]
            [owner]]) ∧
    (conn.find_open_orders_result = [] →
      (place_order m conn fresh payer owner ot side lp mq cid).1 =
        [NetworkEffect.find_open_orders m.own_address owner,
          NetworkEffect.get_minimum_balance_for_rent_exemption OPEN_ORDERS_LAYOUT_SIZE,
          NetworkEffect.send
            [TransactionInstruction.create_account owner fresh conn.rent_exemption_result m.program_id,
              TransactionInstruction.new_order (new_order_params m payer owner ot side lp mq cid fresh)]
            [owner, fresh]]) := by
  constructor
  · intro acct rest hfo
    simp only [place_order, hfo,
      place_order_rest_success m conn payer owner ot side lp mq cid acct.address _ _ _ hp hw hs hq]
    rfl
  · intro hfo
    simp only [place_order, hfo,
      place_order_rest_success m conn payer owner ot side lp mq cid fresh _ _ _ hp hw hs hq]
    rfl

/-- Witness for `c6_open_orders_account_resolution`: concrete calls with
one existing open-orders account at address 500, and with none. -/
theorem c6_open_orders_account_resolution_witness :
    (place_order stateB connD 9 1 2 OrderType.Limit Side.Buy 10 5 0).1 =
      [NetworkEffect.find_open_orders 100 2,
        NetworkEffect.send
          [TransactionInstruction.new_order (new_order_params stateB 1 2 OrderType.Limit Side.Buy 10 5 0 500)]
          [2]] ∧
    (place_order stateB connEmpty 9 1 2 OrderType.Limit Side.Buy 10 5 0).1 =
      [NetworkEffect.find_open_orders 100 2,
        NetworkEffect.get_minimum_balance_for_rent_exemption OPEN_ORDERS_LAYOUT_SIZE,
        NetworkEffect.send
          [TransactionInstruction.create_account 2 9 2039280 101,
            TransactionInstruction.new_order (new_order_params stateB 1 2 OrderType.Limit Side.Buy 10 5 0 9)]
          [2, 9]] := by
  constructor
  · exact (c6_open_orders_account_resolution stateB connD 9 1 2 OrderType.Limit Side.Buy 10 5 0
      (by decide) (by decide) (by decide) (by decide)).1 { address := 500 } [] rfl
  · exact (c6_open_orders_account_resolution stateB connEmpty 9 1 2 OrderType.Limit Side.Buy 10 5 0
      (by decide) (by decide) (by decide) (by decide)).2 rfl

/-- Claim C7: every out-of-scope capability stub — fee-discount key
lookup, wrapped-native-token account handling, owner-side settlement,
per-owner order aggregation, cancel by client id — fails with the
`NotImplementedError` kind, performs no network interaction (empty
effect trace) for every oracle, and that error kind is distinct from the
other error kinds the module raises. -/
theorem c7_unimplemented_capabilities_fail_without_interaction :
    (∀ conn, support_srm_fee_discounts conn =
      ([], Except.error (PyError.notImplementedError "support_srm_fee_discounts not implemented"))) ∧
    (∀ conn owner cd, find_fee_discount_keys conn owner cd =
      ([], Except.error (PyError.notImplementedError "find_fee_discount_keys not implemented"))) ∧
    (∀ conn owner cd, find_best_fee_discount_key conn owner cd =
      ([], Except.error (PyError.notImplementedError "find_best_fee_discount_key not implemented"))) ∧
    (∀ conn owner inc, find_quote_token_accounts_for_owner conn owner inc =
      ([], Except.error (PyError.notImplementedError "find_quote_token_accounts_for_owner not implemented"))) ∧
    (∀ conn, load_orders_for_owner conn =
      ([], Except.error (PyError.notImplementedError "load_orders_for_owner not implemented"))) ∧
    (∀ conn, load_base_token_for_owner conn =
      ([], Except.error (PyError.notImplementedError "load_base_token_for_owner not implemented"))) ∧
    (∀ conn owner, cancel_order_by_client_id conn owner =
      ([], Except.error (PyError.notImplementedError "cancel_order_by_client_id not implemented"))) ∧
    (∀ conn owner oo bw qw, settle_funds conn owner oo bw qw =
      ([], Except.error (PyError.notImplementedError "settle_funds not implemented"))) ∧
    (∀ m1 m2, PyError.notImplementedError m1 ≠ PyError.valueError m2 ∧
      PyError.notImplementedError m1 ≠ PyError.genericException m2) := by
  refine ⟨fun _ => rfl, fun _ _ _ => rfl, fun _ _ _ => rfl, fun _ _ _ => rfl, fun _ => rfl,
    fun _ => rfl, fun _ _ => rfl, fun _ _ _ _ _ => rfl, fun m1 m2 => ⟨by simp, by simp⟩⟩

/-- Claim C8: every `_send_transaction` call performs exactly one
submission (the trace is the single `send` effect, so there is never a
retry), fails with the submission error when the response carries no
`result`, and returns the signature string when one is present. -/
theorem c8_send_transaction_single_submission (conn : Conn)
    (txn : List TransactionInstruction) (signers : List PublicKey) :
    (send_transaction conn txn signers).1 = [NetworkEffect.send txn signers] ∧
    (send_transaction conn txn signers).1.countP (fun e => is_send e) = 1 ∧
    (conn.send_result = none →
      (send_transaction conn txn signers).2 =
        Except.error (PyError.genericException "Transaction not sent successfully")) ∧
    (∀ s, conn.send_result = some s → s ≠ "" →
      (send_transaction conn txn signers).2 = Except.ok s) := by
  refine ⟨rfl, by simp [send_transaction, is_send], ?_, ?_⟩
  · intro h
    simp [send_transaction, h]
  · intro s hs hne
    simp [send_transaction, hs, hne]

/-- Witness for `c8_send_transaction_single_submission`: a response with
signature "sig" and a response without a result field. -/
theorem c8_send_transaction_single_submission_witness :
    (send_transaction connD [] []).2 = Except.ok "sig" ∧
    (send_transaction connNone [] []).2 =
      Except.error (PyError.genericException "Transaction not sent successfully") :=
  ⟨(c8_send_transaction_single_submission connD [] []).2.2.2 "sig" rfl (by decide),
    (c8_send_transaction_single_submission connNone [] []).2.2.1 rfl⟩

/-- Claim C9: every `place_order` call whose payer public key equals the
owner's public key fails with the invalid-payer `ValueError` and never
submits a transaction (no `send` effect in the trace). -/
theorem c9_payer_equal_owner_rejected (m : MarketState) (conn : Conn)
    (fresh owner : PublicKey) (ot : OrderType) (side : Side)
    (lp mq : Int) (cid : Nat) :
    (place_order m conn fresh owner owner ot side lp mq cid).2 =
      Except.error (PyError.valueError "Invalid payer account") ∧
    ((place_order m conn fresh owner owner ot side lp mq cid).1.all
      (fun e => !(is_send e))) = true := by
  unfold place_order place_order_rest
  cases conn.find_open_orders_result <;> simp [is_send]

/-- Claim C10 (code bug): the sell-side wrapped-SOL guard compares the
uncalled `base_mint` method with the mint (`market.py` line 167), so it
never fires: on a market whose base mint is the wrapped native mint, a
Sell order is not rejected — the new-order instruction is built and the
transaction submitted, where the claim (and the Buy-side analogue the
code does enforce) requires an unsupported-operation failure with no
submission. -/
theorem c10_sell_side_wrapped_sol_check_ineffective :
    stateE.base_mint = WRAPPED_SOL_MINT ∧
    place_order stateE connD 9 1 2 OrderType.Limit Side.Sell 10 5 0 =
      ([NetworkEffect.find_open_orders 100 2,
        NetworkEffect.send
          [TransactionInstruction.new_order (new_order_params stateE 1 2 OrderType.Limit Side.Sell 10 5 0 500)]
          [2]],
        Except.ok "sig") :=
  ⟨rfl, rfl⟩

end PySerum
